import Mathlib

/-!
Shallow embedding of the MindHome Assistant notification decision engine:
the feedback tracker (`src/assistant/feedback.py`) and the activity
engine (`src/assistant/activity.py`).

Python floats are modelled as exact rationals (ℚ); timestamps (datetime
values) as rational numbers of seconds; Redis keys `mha:feedback:score:*`,
`mha:feedback:history:*`, `mha:feedback:counters:*` as total functions from
event type to the stored value (with `Option` marking an absent key); the
`_pending` dict as an association list with unique keys.
-/

namespace MindHome

/-- `FEEDBACK_DELTAS` from feedback.py: the feedback kinds and their
score deltas, as an association list (the Python dict). -/
def FEEDBACK_DELTAS : List (String × ℚ) :=
  [("ignored", -(5/100)),
   ("dismissed", -(10/100)),
   ("acknowledged", 5/100),
   ("engaged", 10/100),
   ("thanked", 20/100)]

/-- `DEFAULT_SCORE` from feedback.py. -/
def DEFAULT_SCORE : ℚ := 5/10

/-- `SCORE_SUPPRESS` from feedback.py. -/
def SCORE_SUPPRESS : ℚ := 15/100

/-- `SCORE_REDUCE` from feedback.py. -/
def SCORE_REDUCE : ℚ := 30/100

/-- `SCORE_NORMAL` from feedback.py. -/
def SCORE_NORMAL : ℚ := 50/100

/-- `SCORE_BOOST` from feedback.py. -/
def SCORE_BOOST : ℚ := 70/100

/-- One entry of `self._pending`: `{"event_type": ..., "sent_at": ...}`. -/
structure PendingInfo where
  event_type : String
  sent_at : ℚ
deriving DecidableEq, Repr

/-- One JSON entry of the Redis feedback history list
(`_store_feedback_entry`): `{"type", "delta", "timestamp"}`. -/
structure FeedbackEntry where
  type : String
  delta : ℚ
  timestamp : ℚ
deriving DecidableEq, Repr

/-- The state a `FeedbackTracker` (with a live Redis connection) reads and
writes: the score keys, the history lists, the counter hashes, the in-memory
`_pending` dict, and the two configuration values read at startup. -/
structure TrackerState where
  scores : String → Option ℚ
  history : String → List FeedbackEntry
  counters : String → String → ℕ
  pending : List (String × PendingInfo)
  auto_timeout_seconds : ℚ
  base_cooldown_seconds : ℕ

/-- Log level of a log record emitted by the tracker (the `logging` calls). -/
inductive LogLevel where
  | debug
  | info
  | warning
  | error
deriving DecidableEq, Repr

/-- `get_score`: the stored score, or `DEFAULT_SCORE` when the key is
absent. -/
def get_score (s : TrackerState) (event_type : String) : ℚ :=
  match s.scores event_type with
  | some v => v
  | none => DEFAULT_SCORE

/-- `_update_score`: reads the current score, adds `delta`, clamps to
[0, 1], stores the result and returns it together with the new state. -/
def update_score (s : TrackerState) (event_type : String) (delta : ℚ) :
    TrackerState × ℚ :=
  let current := get_score s event_type
  let new_score := max 0 (min 1 (current + delta))
  ({ s with
      scores := fun e => if e = event_type then some new_score else s.scores e },
   new_score)

/-- `_increment_counter`: `HINCRBY` of 1 on the named counter. -/
def increment_counter (s : TrackerState) (event_type counter_name : String) :
    TrackerState :=
  { s with
      counters := fun e c =>
        if e = event_type ∧ c = counter_name then s.counters e c + 1
        else s.counters e c }

/-- `_store_feedback_entry`: `LPUSH` of the entry followed by
`LTRIM key 0 49`, so the newest 50 entries are kept. -/
def store_feedback_entry (s : TrackerState) (event_type feedback_type : String)
    (delta now : ℚ) : TrackerState :=
  { s with
      history := fun e =>
        if e = event_type then
          (⟨feedback_type, delta, now⟩ :: s.history e).take 50
        else s.history e }

/-- `track_notification`: stores `{event_type, sent_at := now}` under the id
(a Python dict assignment, so an existing entry under the same id is
replaced), increments `total_sent`, and emits one debug-level log record. -/
def track_notification (s : TrackerState) (notification_id event_type : String)
    (now : ℚ) : TrackerState × LogLevel :=
  let s1 := { s with
      pending := (notification_id, ⟨event_type, now⟩) ::
        s.pending.eraseP (fun p => p.1 == notification_id) }
  (increment_counter s1 event_type "total_sent", LogLevel.debug)

/-- The dict returned by a successful `record_feedback`. -/
structure FeedbackResult where
  event_type : String
  feedback_type : String
  delta : ℚ
  new_score : ℚ
deriving DecidableEq, Repr

/-- `record_feedback`: rejects an unknown feedback type with `None`;
otherwise pops the pending entry (falling back to reading the id as the
event type), updates the score, appends the history entry and increments
the counter. -/
def record_feedback (s : TrackerState) (notification_id feedback_type : String)
    (now : ℚ) : Option FeedbackResult × TrackerState :=
  match FEEDBACK_DELTAS.lookup feedback_type with
  | none => (none, s)
  | some delta =>
    let popped : String × TrackerState :=
      match s.pending.lookup notification_id with
      | some info =>
        (info.event_type,
         { s with pending := s.pending.eraseP (fun p => p.1 == notification_id) })
      | none => (notification_id, s)
    let event_type := popped.1
    let s1 := popped.2
    if event_type = "" then (none, s1)
    else
      let upd := update_score s1 event_type delta
      let s2 := upd.1
      let new_score := upd.2
      let s3 := store_feedback_entry s2 event_type feedback_type delta now
      let s4 := increment_counter s3 event_type feedback_type
      (some ⟨event_type, feedback_type, delta, new_score⟩, s4)

/-- The reason string of a `should_notify` decision. The source builds the
deny reasons with an f-string embedding the score formatted to two decimals;
the constructor argument carries that score. -/
inductive NotifyReason where
  | critical_always_allowed
  | score_too_low (score : ℚ)
  | high_priority
  | score_ok
  | low_priority_score_insufficient (score : ℚ)
deriving DecidableEq, Repr

/-- The dict returned by `should_notify`. -/
structure NotifyDecision where
  allow : Bool
  reason : NotifyReason
  cooldown : ℤ
deriving DecidableEq, Repr

/-- `_calculate_cooldown`: the adaptive cooldown from the score. Python's
`int(...)` truncates toward zero; every product here is non-negative, so it
is `Int.floor` on the exact rational value. -/
def calculate_cooldown (base_cooldown_seconds : ℕ) (score : ℚ) : ℤ :=
  if SCORE_BOOST ≤ score then
    Int.floor ((base_cooldown_seconds : ℚ) * (6/10))
  else if SCORE_NORMAL ≤ score then
    (base_cooldown_seconds : ℤ)
  else if SCORE_REDUCE ≤ score then
    Int.floor ((base_cooldown_seconds : ℚ) * 2)
  else
    Int.floor ((base_cooldown_seconds : ℚ) * 5)

/-- `should_notify`: the notification gate. Any urgency other than
`"critical"`, `"high"` or `"medium"` falls through to the final (low) rules,
exactly as in the source. -/
def should_notify (s : TrackerState) (event_type urgency : String) :
    NotifyDecision :=
  if urgency = "critical" then
    ⟨true, NotifyReason.critical_always_allowed, 0⟩
  else
    let score := get_score s event_type
    if urgency = "high" then
      if score < SCORE_SUPPRESS then ⟨false, NotifyReason.score_too_low score, 0⟩
      else ⟨true, NotifyReason.high_priority,
            calculate_cooldown s.base_cooldown_seconds score⟩
    else if urgency = "medium" then
      if score < SCORE_REDUCE then ⟨false, NotifyReason.score_too_low score, 0⟩
      else ⟨true, NotifyReason.score_ok,
            calculate_cooldown s.base_cooldown_seconds score⟩
    else
      if score < SCORE_NORMAL then
        ⟨false, NotifyReason.low_priority_score_insufficient score, 0⟩
      else ⟨true, NotifyReason.score_ok,
            calculate_cooldown s.base_cooldown_seconds score⟩

/-- The body of the `for nid in expired` loop of `_check_timeouts`:
pop the pending entry and record an automatic "ignored" feedback
(score update, history entry, counter). -/
def resolve_as_ignored (s : TrackerState) (event_type : String) (now : ℚ) :
    TrackerState :=
  let s1 := (update_score s event_type (-(5/100))).1
  let s2 := store_feedback_entry s1 event_type "ignored" (-(5/100)) now
  increment_counter s2 event_type "ignored"

/-- `_check_timeouts`: collects the ids of pending entries older than
`auto_timeout_seconds`, then pops each and resolves it as "ignored". -/
def check_timeouts (s : TrackerState) (now : ℚ) : TrackerState :=
  let expired :=
    (s.pending.filter
      (fun p => decide (now - p.2.sent_at > s.auto_timeout_seconds))).map Prod.fst
  expired.foldl
    (fun st nid =>
      match st.pending.lookup nid with
      | some info =>
        resolve_as_ignored
          { st with pending := st.pending.eraseP (fun p => p.1 == nid) }
          info.event_type now
      | none => st)
    s

/-- A finite sequence of `_update_score` calls against one event type, in
order (each explicit feedback and each automatic timeout performs exactly
one such call). -/
def apply_updates (s : TrackerState) (event_type : String) (deltas : List ℚ) :
    TrackerState :=
  deltas.foldl (fun st d => (update_score st event_type d).1) s

/-! ## Activity engine (`src/assistant/activity.py`) -/

/-- Python `str.startswith`, modelled on the character lists underlying the
strings. -/
def starts_with (s pre : String) : Bool :=
  pre.data.isPrefixOf s.data

/-- One record of the Home Assistant state snapshot, restricted to the two
fields the signal checks read. -/
structure EntityState where
  entity_id : String
  state : String
deriving DecidableEq, Repr

/-- The `ActivityEngine` configuration read at startup (entity id lists and
thresholds; `focus_min_minutes` is read by `__init__` but unused by the
signal checks). -/
structure ActivityConfig where
  media_players : List String
  mic_sensors : List String
  bed_sensors : List String
  pc_sensors : List String
  night_start : ℕ
  night_end : ℕ
  guest_person_count : ℕ
  focus_min_minutes : ℕ
deriving Repr

/-- `_check_away`: true iff no `person.*` entity reports state "home". -/
def check_away (states : List EntityState) : Bool :=
  !states.any (fun st => starts_with st.entity_id "person." && st.state == "home")

/-- `_check_media_playing`: true iff some `media_player.*` entity is
"playing". -/
def check_media_playing (states : List EntityState) : Bool :=
  states.any (fun st => starts_with st.entity_id "media_player." && st.state == "playing")

/-- `_check_in_call`: true iff a configured microphone sensor is "on". -/
def check_in_call (cfg : ActivityConfig) (states : List EntityState) : Bool :=
  states.any (fun st => cfg.mic_sensors.contains st.entity_id && st.state == "on")

/-- The loop of `_check_lights_off`, carrying the `any_light` flag: a
`light.*` entity that is "on" returns false immediately; otherwise the flag
records that at least one light exists. -/
def check_lights_off_loop (any_light : Bool) : List EntityState → Bool
  | [] => any_light
  | st :: rest =>
    if starts_with st.entity_id "light." then
      if st.state == "on" then false
      else check_lights_off_loop true rest
    else check_lights_off_loop any_light rest

/-- `_check_lights_off`: true iff at least one `light.*` entity exists and
none is "on". -/
def check_lights_off (states : List EntityState) : Bool :=
  check_lights_off_loop false states

/-- `_check_sleeping`: night (hour ≥ night_start or hour < night_end) and
(a configured bed sensor is "on", or all lights are off). -/
def check_sleeping (cfg : ActivityConfig) (hour : ℕ) (states : List EntityState) :
    Bool :=
  let is_night := decide (hour ≥ cfg.night_start) || decide (hour < cfg.night_end)
  if !is_night then false
  else
    let bed_occupied :=
      states.any (fun st => cfg.bed_sensors.contains st.entity_id && st.state == "on")
    let lights_off := check_lights_off states
    bed_occupied || lights_off

/-- `_check_pc_active`: true iff a configured PC sensor is "on" or
"active". -/
def check_pc_active (cfg : ActivityConfig) (states : List EntityState) : Bool :=
  states.any (fun st =>
    cfg.pc_sensors.contains st.entity_id &&
      (st.state == "on" || st.state == "active"))

/-- `_check_guests`: true iff at least `guest_person_count` `person.*`
entities report "home". -/
def check_guests (cfg : ActivityConfig) (states : List EntityState) : Bool :=
  (states.filter
    (fun st => starts_with st.entity_id "person." && st.state == "home")).length
    ≥ cfg.guest_person_count

/-- The `signals` dict assembled by `detect_activity`. -/
structure Signals where
  away : Bool
  media_playing : Bool
  in_call : Bool
  sleeping : Bool
  pc_active : Bool
  guests : Bool
  lights_off : Bool
deriving DecidableEq, Repr

/-- The signal-collection phase of `detect_activity` (states available),
with the current hour passed explicitly in place of `datetime.now()`. -/
def compute_signals (cfg : ActivityConfig) (hour : ℕ)
    (states : List EntityState) : Signals :=
  { away := check_away states
    media_playing := check_media_playing states
    in_call := check_in_call cfg states
    sleeping := check_sleeping cfg hour states
    pc_active := check_pc_active cfg states
    guests := check_guests cfg states
    lights_off := check_lights_off states }

/-- `_classify`: priority-ordered classification of the signal set into an
activity label and a confidence. -/
def classify (signals : Signals) : String × ℚ :=
  if signals.away then ("away", 95/100)
  else if signals.sleeping then
    ("sleeping", if signals.lights_off then 90/100 else 70/100)
  else if signals.in_call then ("in_call", 95/100)
  else if signals.media_playing then ("watching", 85/100)
  else if signals.guests then ("guests", 80/100)
  else if signals.pc_active then ("focused", 70/100)
  else ("relaxing", 60/100)

/-! ## Concrete states used to exercise the theorems -/

/-- A freshly initialised tracker: empty store, no pending notification,
the default configuration (`auto_timeout_seconds` 120,
`base_cooldown_seconds` 300). -/
def initState : TrackerState :=
  { scores := fun _ => none
    history := fun _ => []
    counters := fun _ _ => 0
    pending := []
    auto_timeout_seconds := 120
    base_cooldown_seconds := 300 }

/-- A tracker holding one stored score of 0.20 for "doorbell". -/
def scoreState : TrackerState :=
  { initState with
      scores := fun e => if e = "doorbell" then some (20/100) else none }

/-- A tracker with a single pending notification "n1" for "doorbell",
sent at time 0. -/
def pendingState : TrackerState :=
  { initState with pending := [("n1", ⟨"doorbell", 0⟩)] }

/-! ## Theorems -/

/-- Claim C1, counterexample: for a fresh tracker the score of an unseen
event type is the 0.5 default, and `should_notify` at urgency "low"
*allows* the notification (the low-urgency rule denies only for a score
strictly below 0.50), contradicting the claim that an unseen event type is
denied at "low" urgency. -/
theorem unseen_low_urgency_allows_cex :
    get_score initState "washer_done" = 5/10 ∧
    (should_notify initState "washer_done" "low").allow = true := by
  constructor
  · rfl
  · have hs : get_score initState "washer_done" = 5/10 := rfl
    simp [should_notify, hs]
    norm_num [SCORE_NORMAL]

/-- Claim C1, amended: for an event_type with no recorded score (so
`get_score` returns the default 0.5), `should_notify` allows the
notification at all four urgencies, including "low", because the
low-urgency rule denies only scores strictly below 0.50. -/
theorem unseen_event_allowed_at_all_urgencies (s : TrackerState)
    (event_type : String) (h : s.scores event_type = none) :
    (should_notify s event_type "critical").allow = true ∧
    (should_notify s event_type "high").allow = true ∧
    (should_notify s event_type "medium").allow = true ∧
    (should_notify s event_type "low").allow = true := by
  have hs : get_score s event_type = 5/10 := by
    simp [get_score, h, DEFAULT_SCORE]
  refine ⟨rfl, ?_, ?_, ?_⟩ <;>
  · simp [should_notify, hs]
    norm_num [SCORE_SUPPRESS, SCORE_REDUCE, SCORE_NORMAL]

/-- Witness for the amended claim C1, at the fresh tracker. -/
theorem unseen_event_allowed_at_all_urgencies_witness :
    (should_notify initState "washer_done" "critical").allow = true ∧
    (should_notify initState "washer_done" "high").allow = true ∧
    (should_notify initState "washer_done" "medium").allow = true ∧
    (should_notify initState "washer_done" "low").allow = true :=
  unseen_event_allowed_at_all_urgencies initState "washer_done" rfl

/-- Claim C2: for every tracker state (hence every stored score, 0.0
included) and every event type, `should_notify` at urgency "critical"
returns allow, cooldown 0 and reason `critical_always_allowed`; the score
store is never consulted, as the same constant decision results from every
state. -/
theorem critical_always_allowed_decision (s : TrackerState)
    (event_type : String) :
    should_notify s event_type "critical" =
      ⟨true, NotifyReason.critical_always_allowed, 0⟩ := rfl

/-- Claim C3: the graduated threshold table of `should_notify` — at "high" it
denies exactly when the score is below 0.15, at "medium" exactly below 0.30,
at "low" exactly below 0.50, and otherwise allows with the computed cooldown;
in particular a fixed score of 0.20 is denied at "low" and "medium" but
allowed at "high" and "critical". -/
theorem should_notify_threshold_table (s : TrackerState) (event_type : String) :
    ((should_notify s event_type "high").allow = false ↔
      get_score s event_type < 15/100) ∧
    (¬ get_score s event_type < 15/100 →
      should_notify s event_type "high" =
        ⟨true, NotifyReason.high_priority,
         calculate_cooldown s.base_cooldown_seconds (get_score s event_type)⟩) ∧
    ((should_notify s event_type "medium").allow = false ↔
      get_score s event_type < 30/100) ∧
    (¬ get_score s event_type < 30/100 →
      should_notify s event_type "medium" =
        ⟨true, NotifyReason.score_ok,
         calculate_cooldown s.base_cooldown_seconds (get_score s event_type)⟩) ∧
    ((should_notify s event_type "low").allow = false ↔
      get_score s event_type < 50/100) ∧
    (¬ get_score s event_type < 50/100 →
      should_notify s event_type "low" =
        ⟨true, NotifyReason.score_ok,
         calculate_cooldown s.base_cooldown_seconds (get_score s event_type)⟩) ∧
    (get_score s event_type = 20/100 →
      (should_notify s event_type "low").allow = false ∧
      (should_notify s event_type "medium").allow = false ∧
      (should_notify s event_type "high").allow = true ∧
      (should_notify s event_type "critical").allow = true) := by
  refine ⟨?_, ?_, ?_, ?_, ?_, ?_, ?_⟩
  · by_cases h : get_score s event_type < 15/100 <;>
      simp [should_notify, SCORE_SUPPRESS, h]
  · intro h
    simp [should_notify, SCORE_SUPPRESS, h]
  · by_cases h : get_score s event_type < 30/100 <;>
      simp [should_notify, SCORE_REDUCE, h]
  · intro h
    simp [should_notify, SCORE_REDUCE, h]
  · by_cases h : get_score s event_type < 50/100 <;>
      simp [should_notify, SCORE_NORMAL, h]
  · intro h
    simp [should_notify, SCORE_NORMAL, h]
  · intro h20
    refine ⟨?_, ?_, ?_, rfl⟩ <;>
    · simp [should_notify, h20]
      norm_num [SCORE_SUPPRESS, SCORE_REDUCE, SCORE_NORMAL]

/-- Witness for claim C3, at the tracker holding a stored score of 0.20 for
"doorbell". -/
theorem should_notify_threshold_table_witness :
    (should_notify scoreState "doorbell" "low").allow = false ∧
    (should_notify scoreState "doorbell" "medium").allow = false ∧
    (should_notify scoreState "doorbell" "high").allow = true ∧
    (should_notify scoreState "doorbell" "critical").allow = true :=
  (should_notify_threshold_table scoreState "doorbell").2.2.2.2.2.2 rfl

/-- Claim C4: `_calculate_cooldown` is a pure function of the score and the
base seconds implementing the multiplier table (0.6× at score ≥ 0.70, 1.0×
on [0.50, 0.70), 2.0× on [0.30, 0.50), 5.0× below 0.30, truncated to an
integer), and it is non-increasing in the score: s1 < s2 implies
cooldown(s1) ≥ cooldown(s2). -/
theorem cooldown_table_and_monotone (base : ℕ) (score s1 s2 : ℚ)
    (h : s1 < s2) :
    (70/100 ≤ score →
      calculate_cooldown base score = Int.floor ((base : ℚ) * (6/10))) ∧
    (50/100 ≤ score → score < 70/100 →
      calculate_cooldown base score = (base : ℤ)) ∧
    (30/100 ≤ score → score < 50/100 →
      calculate_cooldown base score = Int.floor ((base : ℚ) * 2)) ∧
    (score < 30/100 →
      calculate_cooldown base score = Int.floor ((base : ℚ) * 5)) ∧
    calculate_cooldown base s2 ≤ calculate_cooldown base s1 := by
  have hb0 : (0 : ℚ) ≤ (base : ℚ) := Nat.cast_nonneg base
  have hfloor1 : Int.floor ((base : ℚ) * (6/10)) ≤ (base : ℤ) := by
    calc Int.floor ((base : ℚ) * (6/10)) ≤ Int.floor ((base : ℚ)) :=
          Int.floor_le_floor (by nlinarith)
      _ = (base : ℤ) := Int.floor_natCast base
  have hfloor2 : (base : ℤ) ≤ Int.floor ((base : ℚ) * 2) := by
    calc (base : ℤ) = Int.floor ((base : ℚ)) := (Int.floor_natCast base).symm
      _ ≤ Int.floor ((base : ℚ) * 2) := Int.floor_le_floor (by nlinarith)
  have hfloor3 : Int.floor ((base : ℚ) * 2) ≤ Int.floor ((base : ℚ) * 5) :=
    Int.floor_le_floor (by nlinarith)
  refine ⟨?_, ?_, ?_, ?_, ?_⟩
  · intro h1
    unfold calculate_cooldown SCORE_BOOST SCORE_NORMAL SCORE_REDUCE
    rw [if_pos (by linarith)]
  · intro h1 h2
    unfold calculate_cooldown SCORE_BOOST SCORE_NORMAL SCORE_REDUCE
    split_ifs <;> first | rfl | linarith
  · intro h1 h2
    unfold calculate_cooldown SCORE_BOOST SCORE_NORMAL SCORE_REDUCE
    split_ifs <;> first | rfl | linarith
  · intro h1
    unfold calculate_cooldown SCORE_BOOST SCORE_NORMAL SCORE_REDUCE
    split_ifs <;> first | rfl | linarith
  · unfold calculate_cooldown SCORE_BOOST SCORE_NORMAL SCORE_REDUCE
    split_ifs <;> linarith [hfloor1, hfloor2, hfloor3]

/-- Witness for claim C4: base 300, scores 0.20 < 0.80; the cooldown drops
from 1500 to 180 seconds. -/
theorem cooldown_table_and_monotone_witness :
    (70/100 ≤ (80/100 : ℚ) →
      calculate_cooldown 300 (80/100) = Int.floor ((300 : ℚ) * (6/10))) ∧
    (50/100 ≤ (80/100 : ℚ) → (80/100 : ℚ) < 70/100 →
      calculate_cooldown 300 (80/100) = (300 : ℤ)) ∧
    (30/100 ≤ (80/100 : ℚ) → (80/100 : ℚ) < 50/100 →
      calculate_cooldown 300 (80/100) = Int.floor ((300 : ℚ) * 2)) ∧
    ((80/100 : ℚ) < 30/100 →
      calculate_cooldown 300 (80/100) = Int.floor ((300 : ℚ) * 5)) ∧
    calculate_cooldown 300 (80/100) ≤ calculate_cooldown 300 (20/100) :=
  cooldown_table_and_monotone 300 (80/100) (20/100) (80/100) (by norm_num)

/-- One `_update_score` call changes the stored score of the event type to
the clamped sum. -/
theorem get_score_update_eq (s : TrackerState) (event_type : String) (d : ℚ) :
    get_score (update_score s event_type d).1 event_type =
      max 0 (min 1 (get_score s event_type + d)) := by
  simp [get_score, update_score]

/-- Claim C5: starting from any state whose score for the event type lies in
[0, 1] (a fresh tracker starts at the default 0.5), every finite sequence of
`_update_score` calls — explicit feedback of any kind and/or automatic
timeouts, with any deltas — leaves `get_score` in [0.0, 1.0], because every
update clamps before persisting. -/
theorem score_always_in_bounds (s : TrackerState) (event_type : String)
    (deltas : List ℚ) (h0 : 0 ≤ get_score s event_type)
    (h1 : get_score s event_type ≤ 1) :
    0 ≤ get_score (apply_updates s event_type deltas) event_type ∧
    get_score (apply_updates s event_type deltas) event_type ≤ 1 := by
  induction deltas generalizing s with
  | nil => exact ⟨h0, h1⟩
  | cons d ds ih =>
    refine ih ((update_score s event_type d).1) ?_ ?_
    · rw [get_score_update_eq]
      exact le_max_left 0 _
    · rw [get_score_update_eq]
      exact max_le (by norm_num) (min_le_left 1 _)

/-- Witness for claim C5: six "dismissed" deltas from the fresh default 0.5
stay within [0, 1] (the unclamped sum would be -0.1). -/
theorem score_always_in_bounds_witness :
    0 ≤ get_score (apply_updates initState "doorbell"
      [-(10/100), -(10/100), -(10/100), -(10/100), -(10/100), -(10/100)])
      "doorbell" ∧
    get_score (apply_updates initState "doorbell"
      [-(10/100), -(10/100), -(10/100), -(10/100), -(10/100), -(10/100)])
      "doorbell" ≤ 1 :=
  score_always_in_bounds initState "doorbell" _
    (by norm_num [get_score, initState, DEFAULT_SCORE])
    (by norm_num [get_score, initState, DEFAULT_SCORE])

/-- Looking up a key of an association list with distinct keys finds the
member carrying it. -/
theorem lookup_eq_some_of_mem_nodup {α β : Type} [BEq α] [LawfulBEq α]
    {l : List (α × β)} {k : α} {v : β} (hnd : (l.map Prod.fst).Nodup)
    (hmem : (k, v) ∈ l) : l.lookup k = some v := by
  induction l with
  | nil => cases hmem
  | cons p t ih =>
    obtain ⟨k', v'⟩ := p
    rw [List.map_cons] at hnd
    rcases List.nodup_cons.mp hnd with ⟨hk', hnd'⟩
    rcases List.mem_cons.mp hmem with hhead | htail
    · injection hhead with h1 h2
      subst h1
      subst h2
      simp [List.lookup]
    · have hk : (k == k') = false := by
        apply beq_eq_false_iff_ne.mpr
        intro hkk
        have hkmem : k ∈ t.map Prod.fst := List.mem_map_of_mem Prod.fst htail
        rw [hkk] at hkmem
        exact hk' hkmem
      simp only [List.lookup, hk]
      exact ih hnd' htail

/-- A key outside an association list's keys looks up to `none`. -/
theorem lookup_eq_none_of_not_mem_keys {α β : Type} [BEq α] [LawfulBEq α]
    {l : List (α × β)} {k : α} (h : k ∉ l.map Prod.fst) :
    l.lookup k = none := by
  induction l with
  | nil => rfl
  | cons p t ih =>
    obtain ⟨k', v'⟩ := p
    have hk : (k == k') = false := by
      apply beq_eq_false_iff_ne.mpr
      intro hkk
      exact h (by simp [hkk])
    simp only [List.lookup, hk]
    exact ih (fun hmem => h (by simp [hmem]))

/-- After deleting a key from an association list with distinct keys, the
key looks up to `none`. -/
theorem lookup_eraseP_key_eq_none {α β : Type} [BEq α] [LawfulBEq α]
    {l : List (α × β)} {k : α} (hnd : (l.map Prod.fst).Nodup) :
    (l.eraseP (fun p => p.1 == k)).lookup k = none := by
  induction l with
  | nil => rfl
  | cons p t ih =>
    obtain ⟨k', v'⟩ := p
    rw [List.map_cons] at hnd
    rcases List.nodup_cons.mp hnd with ⟨hk', hnd'⟩
    by_cases hk : k' = k
    · subst hk
      rw [List.eraseP_cons_of_pos (by simp)]
      exact lookup_eq_none_of_not_mem_keys hk'
    · rw [List.eraseP_cons_of_neg (by simpa using hk)]
      have : (k == k') = false := beq_eq_false_iff_ne.mpr (fun h => hk h.symm)
      simp only [List.lookup, this]
      exact ih hnd'

/-- A boolean filter on a duplicate-free list keeping exactly one member
returns the singleton of that member. -/
theorem filter_eq_singleton_of_unique {α : Type} {l : List α} {P : α → Bool}
    {a : α} (hnd : l.Nodup) (hmem : a ∈ l) (ha : P a = true)
    (hother : ∀ b ∈ l, b ≠ a → P b = false) : l.filter P = [a] := by
  induction l with
  | nil => cases hmem
  | cons x t ih =>
    rcases List.nodup_cons.mp hnd with ⟨hx, hnd'⟩
    rcases List.mem_cons.mp hmem with rfl | htail
    · rw [List.filter_cons_of_pos ha]
      have : t.filter P = [] := List.filter_eq_nil_iff.mpr
        (fun b hb => by
          have : b ≠ a := fun h => hx (h ▸ hb)
          simp [hother b (List.mem_cons_of_mem _ hb) this])
      rw [this]
    · have hxa : x ≠ a := fun h => hx (h ▸ htail)
      rw [List.filter_cons_of_neg
        (by simp [hother x (List.mem_cons_self x t) hxa])]
      exact ih hnd' htail (fun b hb hba =>
        hother b (List.mem_cons_of_mem _ hb) hba)

/-- Claim C6: a pending notification whose age exceeds `auto_timeout_seconds`
(and which is the only expired one, i.e. it received no feedback while the
others are fresh) is resolved exactly once by one `_check_timeouts` sweep:
it is deleted from the pending registry (its id no longer resolves), exactly
one "ignored" entry is prepended to its event type's history, and the score
drops by 0.05, clamped at 0. -/
theorem timeout_resolves_to_ignored (s : TrackerState) (now : ℚ)
    (nid : String) (info : PendingInfo)
    (hkeys : (s.pending.map Prod.fst).Nodup)
    (hmem : (nid, info) ∈ s.pending)
    (hexp : now - info.sent_at > s.auto_timeout_seconds)
    (honly : ∀ p ∈ s.pending, p ≠ (nid, info) →
      ¬(now - p.2.sent_at > s.auto_timeout_seconds))
    (hlen : (s.history info.event_type).length ≤ 49)
    (hscore : get_score s info.event_type ≤ 1) :
    (check_timeouts s now).pending =
      s.pending.eraseP (fun p => p.1 == nid) ∧
    (check_timeouts s now).pending.lookup nid = none ∧
    (check_timeouts s now).history info.event_type =
      ⟨"ignored", -(5/100), now⟩ :: s.history info.event_type ∧
    get_score (check_timeouts s now) info.event_type =
      max 0 (get_score s info.event_type - 5/100) := by
  have hfilter : s.pending.filter
      (fun p => decide (now - p.2.sent_at > s.auto_timeout_seconds)) =
      [(nid, info)] :=
    filter_eq_singleton_of_unique (hkeys.of_map _) hmem
      (decide_eq_true hexp)
      (fun b hb hba => decide_eq_false (honly b hb hba))
  have hlookup : s.pending.lookup nid = some info :=
    lookup_eq_some_of_mem_nodup hkeys hmem
  have hstep : check_timeouts s now =
      resolve_as_ignored
        { s with pending := s.pending.eraseP (fun p => p.1 == nid) }
        info.event_type now := by
    unfold check_timeouts
    rw [hfilter]
    simp only [List.map_cons, List.map_nil, List.foldl_cons, List.foldl_nil]
    rw [hlookup]
  refine ⟨?_, ?_, ?_, ?_⟩
  · rw [hstep]
    rfl
  · rw [hstep]
    exact lookup_eraseP_key_eq_none hkeys
  · rw [hstep]
    show (if info.event_type = info.event_type then
        (⟨"ignored", -(5/100), now⟩ :: s.history info.event_type).take 50
      else s.history info.event_type) = _
    rw [if_pos rfl]
    exact List.take_of_length_le (by simpa using hlen)
  · rw [hstep]
    show (match (if info.event_type = info.event_type then
        some (max 0 (min 1 (get_score s info.event_type + -(5/100))))
      else s.scores info.event_type) with
      | some v => v
      | none => DEFAULT_SCORE) = _
    rw [if_pos rfl]
    have hmin : min 1 (get_score s info.event_type + -(5/100)) =
        get_score s info.event_type + -(5/100) :=
      min_eq_right (by linarith)
    rw [hmin, sub_eq_add_neg]

/-- Witness for claim C6: the single pending notification "n1" for
"doorbell" sent at time 0, swept at time 121 with the default 120-second
timeout. -/
theorem timeout_resolves_to_ignored_witness :
    (check_timeouts pendingState 121).pending =
      pendingState.pending.eraseP (fun p => p.1 == "n1") ∧
    (check_timeouts pendingState 121).pending.lookup "n1" = none ∧
    (check_timeouts pendingState 121).history "doorbell" =
      ⟨"ignored", -(5/100), 121⟩ :: pendingState.history "doorbell" ∧
    get_score (check_timeouts pendingState 121) "doorbell" =
      max 0 (get_score pendingState "doorbell" - 5/100) :=
  timeout_resolves_to_ignored pendingState 121 "n1" ⟨"doorbell", 0⟩
    (by decide) (by decide) (by norm_num [pendingState, initState])
    (by decide) (by decide)
    (by norm_num [get_score, pendingState, initState, DEFAULT_SCORE])

/-- Claim C7: `_classify` applies its rules strictly in the order
away > sleeping > in_call > watching > guests > focused > relaxing, the
first true signal deciding; in particular sleeping together with in_call
(away false) yields "sleeping" with confidence 0.90 when lights_off holds
and 0.70 otherwise, and no true signal yields "relaxing" at 0.60. -/
theorem classify_priority_order (sig : Signals) :
    (sig.away = true → classify sig = ("away", 95/100)) ∧
    (sig.away = false → sig.sleeping = true →
      classify sig = ("sleeping", if sig.lights_off then 90/100 else 70/100)) ∧
    (sig.away = false → sig.sleeping = false → sig.in_call = true →
      classify sig = ("in_call", 95/100)) ∧
    (sig.away = false → sig.sleeping = false → sig.in_call = false →
      sig.media_playing = true → classify sig = ("watching", 85/100)) ∧
    (sig.away = false → sig.sleeping = false → sig.in_call = false →
      sig.media_playing = false → sig.guests = true →
      classify sig = ("guests", 80/100)) ∧
    (sig.away = false → sig.sleeping = false → sig.in_call = false →
      sig.media_playing = false → sig.guests = false → sig.pc_active = true →
      classify sig = ("focused", 70/100)) ∧
    (sig.away = false → sig.sleeping = false → sig.in_call = false →
      sig.media_playing = false → sig.guests = false → sig.pc_active = false →
      classify sig = ("relaxing", 60/100)) := by
  refine ⟨?_, ?_, ?_, ?_, ?_, ?_, ?_⟩ <;>
  · intros
    simp_all [classify]

/-- Witness for claim C7: sleeping and in_call both set (away unset,
lights on) classifies as "sleeping" with confidence 0.70, not "in_call". -/
theorem classify_priority_order_witness :
    classify ⟨false, true, true, true, false, false, false⟩ =
      ("sleeping", if (false : Bool) then 90/100 else 70/100) :=
  (classify_priority_order ⟨false, true, true, true, false, false, false⟩).2.1
    rfl rfl

/-- Claim C8, counterexample: tracking id "n1" for "door" and then again for
"window" silently replaces the prior pending record — the second call keeps
the new record under "n1" and emits only a debug-level log, no rejection and
no warning. -/
theorem duplicate_track_silently_replaces_cex :
    (track_notification (track_notification initState "n1" "door" 1).1
        "n1" "window" 2).1.pending = [("n1", ⟨"window", 2⟩)] ∧
    (track_notification (track_notification initState "n1" "door" 1).1
        "n1" "window" 2).2 = LogLevel.debug := by
  constructor
  · rfl
  · rfl

/-- Claim C8, amended: `track_notification` on an already-pending id
overwrites the prior pending record in place (the id afterwards resolves to
the new event type and timestamp) and emits only a debug log record; there
is neither a rejection nor a warning. -/
theorem duplicate_track_overwrites (s : TrackerState)
    (nid et1 et2 : String) (t1 t2 : ℚ) :
    (track_notification (track_notification s nid et1 t1).1
        nid et2 t2).1.pending.lookup nid = some ⟨et2, t2⟩ ∧
    (track_notification (track_notification s nid et1 t1).1
        nid et2 t2).2 = LogLevel.debug := by
  constructor
  · simp [track_notification, increment_counter, List.lookup]
  · rfl

/-- Claim C9: a feedback type outside the closed set {ignored, dismissed,
acknowledged, engaged, thanked} makes `record_feedback` return the rejection
value `None` and leave the whole state — scores, history, counters and
pending registry — untouched. -/
theorem invalid_feedback_kind_rejected (s : TrackerState)
    (notification_id feedback_type : String) (now : ℚ)
    (h : feedback_type ∉
      ["ignored", "dismissed", "acknowledged", "engaged", "thanked"]) :
    record_feedback s notification_id feedback_type now = (none, s) := by
  have hdelta : FEEDBACK_DELTAS.lookup feedback_type = none := by
    simp only [List.mem_cons, List.not_mem_nil, or_false, not_or] at h
    obtain ⟨h1, h2, h3, h4, h5⟩ := h
    have b1 : (feedback_type == "ignored") = false := beq_eq_false_iff_ne.mpr h1
    have b2 : (feedback_type == "dismissed") = false := beq_eq_false_iff_ne.mpr h2
    have b3 : (feedback_type == "acknowledged") = false :=
      beq_eq_false_iff_ne.mpr h3
    have b4 : (feedback_type == "engaged") = false := beq_eq_false_iff_ne.mpr h4
    have b5 : (feedback_type == "thanked") = false := beq_eq_false_iff_ne.mpr h5
    simp [FEEDBACK_DELTAS, List.lookup, b1, b2, b3, b4, b5]
  unfold record_feedback
  rw [hdelta]

/-- Witness for claim C9: the unknown feedback type "liked" on a fresh
tracker is rejected without any state change. -/
theorem invalid_feedback_kind_rejected_witness :
    record_feedback initState "n1" "liked" 0 = (none, initState) :=
  invalid_feedback_kind_rejected initState "n1" "liked" 0 (by decide)

/-- Over a snapshot with no `light.*` entity the `_check_lights_off` loop
returns its flag unchanged; started on `false` (as `_check_lights_off`
does), it reports that the lights are not all off. -/
theorem check_lights_off_loop_const (states : List EntityState) :
    ∀ b : Bool, (∀ st ∈ states, starts_with st.entity_id "light." = false) →
      check_lights_off_loop b states = b := by
  induction states with
  | nil =>
    intro b _
    rfl
  | cons st rest ih =>
    intro b hnl
    have hst := hnl st (List.mem_cons_self st rest)
    unfold check_lights_off_loop
    rw [hst]
    simp only [Bool.false_eq_true, if_false]
    exact ih b (fun st' hmem => hnl st' (List.mem_cons_of_mem _ hmem))

/-- Claim C10: a state snapshot with no `light.*` entity never yields
lights_off (the "all lights off" check is not vacuously true), so whenever
the full pipeline classifies such a snapshot as "sleeping" it is because a
configured bed sensor reports "on", and the confidence is then 0.70, never
the 0.90 that needs lights_off. -/
theorem no_lights_never_vacuously_off (cfg : ActivityConfig) (hour : ℕ)
    (states : List EntityState)
    (hnl : ∀ st ∈ states, starts_with st.entity_id "light." = false) :
    check_lights_off states = false ∧
    ((classify (compute_signals cfg hour states)).1 = "sleeping" →
      (∃ st ∈ states, cfg.bed_sensors.contains st.entity_id ∧
        st.state = "on") ∧
      (classify (compute_signals cfg hour states)).2 = 70/100) := by
  have hoff : check_lights_off states = false :=
    check_lights_off_loop_const states false hnl
  refine ⟨hoff, ?_⟩
  intro hcls
  by_cases ha : (compute_signals cfg hour states).away = true
  · simp [classify, ha] at hcls
  · by_cases hs : (compute_signals cfg hour states).sleeping = true
    · have hsleep : check_sleeping cfg hour states = true := hs
      have hlo : (compute_signals cfg hour states).lights_off = false := hoff
      constructor
      · simp only [check_sleeping, hoff, Bool.or_false] at hsleep
        split at hsleep
        · cases hsleep
        · obtain ⟨st, hmem, hst⟩ := List.any_eq_true.mp hsleep
          rcases (Bool.and_eq_true _ _).mp hst with ⟨hcontains, hon⟩
          exact ⟨st, hmem, hcontains, eq_of_beq hon⟩
      · simp [classify, ha, hs, hlo]
    · by_cases h3 : (compute_signals cfg hour states).in_call = true <;>
        by_cases h4 : (compute_signals cfg hour states).media_playing = true <;>
        by_cases h5 : (compute_signals cfg hour states).guests = true <;>
        by_cases h6 : (compute_signals cfg hour states).pc_active = true <;>
        simp [classify, ha, hs, h3, h4, h5, h6] at hcls

/-- The `ActivityEngine` default configuration (the fallback entity lists
and thresholds of `__init__`). -/
def defaultCfg : ActivityConfig :=
  { media_players :=
      ["media_player.wohnzimmer", "media_player.fernseher", "media_player.tv"]
    mic_sensors := ["binary_sensor.mic_active", "binary_sensor.microphone"]
    bed_sensors := ["binary_sensor.bed_occupancy", "binary_sensor.bett"]
    pc_sensors := ["binary_sensor.pc_active", "binary_sensor.computer", "switch.pc"]
    night_start := 22
    night_end := 7
    guest_person_count := 2
    focus_min_minutes := 30 }

/-- A night-time snapshot with one person home, the bed sensor on and no
light entity at all. -/
def nightStates : List EntityState :=
  [⟨"person.anna", "home"⟩, ⟨"binary_sensor.bed_occupancy", "on"⟩]

/-- Witness for claim C10: at hour 23 with no lights in the snapshot, the
pipeline classifies "sleeping" through the bed sensor at confidence 0.70. -/
theorem no_lights_never_vacuously_off_witness :
    check_lights_off nightStates = false ∧
    (∃ st ∈ nightStates, defaultCfg.bed_sensors.contains st.entity_id ∧
      st.state = "on") ∧
    (classify (compute_signals defaultCfg 23 nightStates)).2 = 70/100 :=
  ⟨(no_lights_never_vacuously_off defaultCfg 23 nightStates (by decide)).1,
   (no_lights_never_vacuously_off defaultCfg 23 nightStates (by decide)).2
     (by decide)⟩

end MindHome
